import Mathlib

/-!
Shallow embedding of the nonebot_plugin_pjskbirthday plugin
(src/config.py and src/__init__.py): the roster data model, the two roster
lookups, the message builder, the delivery fan-out loops, configuration
loading, and the body of the daily scheduler loop. Effectful pieces are
embedded as pure functions over explicit inputs (the current MM-DD string,
the image directory contents, the transport outcome per destination) that
return the trace of transport actions they perform.
-/

/-- A character record (src/config.py, class CharacterConfig): display name,
birthday in the fixed MM-DD format, and the image file name. -/
structure CharacterConfig where
  name : String
  birthday : String
  image_file : String
deriving DecidableEq, Repr

/-- Delivery settings (src/config.py, class PluginConfig): the group-delivery
gate and the destination allow list. -/
structure PluginConfig where
  enable_group : Bool
  white_list_groups : List Int
deriving DecidableEq, Repr

/-- The PluginConfig pydantic defaults from src/config.py: enable_group is
True and white_list_groups is empty. This is the value PluginConfig()
builds. -/
def defaultPluginConfig : PluginConfig :=
  PluginConfig.mk true []

/-- A value stored under a key inside one group of the characters mapping:
either a dict carrying the three character fields, or a non-dict value such
as the comment string. The source guards every record access with
isinstance(char_config, dict). -/
inductive Entry where
  | record : CharacterConfig → Entry
  | other : String → Entry
deriving DecidableEq, Repr

/-- One group of the characters mapping: keyed entries in insertion order,
as Python dict iteration preserves it. -/
abbrev GroupData := List (String × Entry)

/-- The whole characters mapping: keyed groups in insertion order. -/
abbrev CharactersConfig := List (String × GroupData)

/-- Inner loop of get_today_birthday_characters (src/__init__.py lines
70-75): scan one group, skipping the comment key and non-dict values,
collecting in order the records whose birthday field equals today. -/
def todayScanGroup (today : String) : GroupData → List CharacterConfig
  | [] => []
  | (char_id, v) :: rest =>
    if char_id = "comment" then todayScanGroup today rest
    else
      match v with
      | Entry.record c =>
        if c.birthday = today then c :: todayScanGroup today rest
        else todayScanGroup today rest
      | Entry.other _ => todayScanGroup today rest

/-- get_today_birthday_characters (src/__init__.py lines 61-77), with the
current MM-DD string passed explicitly: scan every group, skipping the
plugin_config key, and collect the records whose birthday equals today. -/
def get_today_birthday_characters (today : String) : CharactersConfig → List CharacterConfig
  | [] => []
  | (group_id, g) :: rest =>
    if group_id = "plugin_config" then get_today_birthday_characters today rest
    else todayScanGroup today g ++ get_today_birthday_characters today rest

/-- Inner loop of get_character_by_name (src/__init__.py lines 85-91):
first record of one group whose name field equals the argument. -/
def nameScanGroup (character_name : String) : GroupData → Option CharacterConfig
  | [] => none
  | (char_id, v) :: rest =>
    if char_id = "comment" then nameScanGroup character_name rest
    else
      match v with
      | Entry.record c =>
        if c.name = character_name then some c
        else nameScanGroup character_name rest
      | Entry.other _ => nameScanGroup character_name rest

/-- get_character_by_name (src/__init__.py lines 79-93): first record, in
group order then record order, whose name field equals the argument
exactly; none when no record matches. -/
def get_character_by_name (character_name : String) : CharactersConfig → Option CharacterConfig
  | [] => none
  | (group_id, g) :: rest =>
    if group_id = "plugin_config" then get_character_by_name character_name rest
    else
      match nameScanGroup character_name g with
      | some c => some c
      | none => get_character_by_name character_name rest

/-- The records of one group in record order: exactly the dict values the
source loops visit, that is every record not stored under the comment
key. -/
def groupRecords : GroupData → List CharacterConfig
  | [] => []
  | (char_id, v) :: rest =>
    if char_id = "comment" then groupRecords rest
    else
      match v with
      | Entry.record c => c :: groupRecords rest
      | Entry.other _ => groupRecords rest

/-- All configured records in group order then record order, skipping the
plugin_config pseudo group. -/
def allRecords : CharactersConfig → List CharacterConfig
  | [] => []
  | (group_id, g) :: rest =>
    if group_id = "plugin_config" then allRecords rest
    else groupRecords g ++ allRecords rest

/-- A message segment as the plugin uses them: MessageSegment.text, or
MessageSegment.image carrying the raw image bytes. -/
inductive MessageSegment where
  | text : String → MessageSegment
  | image : List Nat → MessageSegment
deriving DecidableEq, Repr

/-- The image directory contents (data/pjskbirthday/images): maps a file
name to its bytes when the file exists, none when it does not. -/
abbrev ImageStore := String → Option (List Nat)

/-- build_birthday_message (src/__init__.py lines 95-114): a text segment
with an optional test marker, then the image segment, which degrades to a
placeholder text segment when the image file does not exist. -/
def build_birthday_message (store : ImageStore) (character : CharacterConfig)
    (is_test : Bool) : List MessageSegment :=
  let marker := if is_test then "[测试] " else ""
  let image_segment :=
    match store character.image_file with
    | some image_data => MessageSegment.image image_data
    | none => MessageSegment.text "[图片文件不存在]"
  [MessageSegment.text (marker ++ "🎉今天是 " ++ character.name ++ " 的生日！\n"), image_segment]

/-- One observable transport action of a fan-out loop: one send_group_msg
call with its destination group, the message and whether the transport
succeeded, or one asyncio.sleep(1) delay. -/
inductive Event where
  | send : Int → List MessageSegment → Bool → Event
  | sleep : Event
deriving DecidableEq, Repr

/-- The transport outcome oracle: whether bot.send_group_msg to the given
group succeeds (true) or raises (false). -/
abbrev Transport := Int → Bool

/-- Fan-out loop of send_test_character (src/__init__.py lines 152-160): per
destination, count the attempt, call the transport and, only when the call
succeeded, count the success and sleep one unit, because the sleep sits
inside the try after the send; a failure is logged and the loop continues
with no sleep. Returns (success_count, total_count, trace). -/
def testLoop (transport : Transport) (message : List MessageSegment) :
    List Int → Nat × Nat × List Event
  | [] => (0, 0, [])
  | group_id :: rest =>
    let r := testLoop transport message rest
    if transport group_id then
      (r.1 + 1, r.2.1 + 1, Event.send group_id message true :: Event.sleep :: r.2.2)
    else
      (r.1, r.2.1 + 1, Event.send group_id message false :: r.2.2)

/-- The delivery fan-out of send_test_character (src/__init__.py lines
148-161): the loop runs only when enable_group is set and the allow list is
non-empty (Python truthiness of the list at line 151); otherwise the counts
stay (0, 0) and nothing is sent. -/
def deliver (pc : PluginConfig) (transport : Transport)
    (message : List MessageSegment) : Nat × Nat × List Event :=
  if pc.enable_group && !pc.white_list_groups.isEmpty then
    testLoop transport message pc.white_list_groups
  else (0, 0, [])

/-- Fan-out loop of send_birthday_notification (src/__init__.py lines
129-135): same shape as the test loop, with no counters; the sleep again
sits inside the try after the send, so it only happens on success. -/
def notifyLoop (transport : Transport) (message : List MessageSegment) :
    List Int → List Event
  | [] => []
  | group_id :: rest =>
    if transport group_id then
      Event.send group_id message true :: Event.sleep :: notifyLoop transport message rest
    else
      Event.send group_id message false :: notifyLoop transport message rest

/-- send_birthday_notification (src/__init__.py lines 116-138), as the trace
of transport actions it performs: find the characters whose birthday is
today, return with no sends when there are none, otherwise build each
message and fan it out to the allow list when the gate at line 128
passes. -/
def send_birthday_notification (today : String) (cfg : CharactersConfig)
    (pc : PluginConfig) (store : ImageStore) (transport : Transport) : List Event :=
  let today_characters := get_today_birthday_characters today cfg
  if today_characters.isEmpty then []
  else
    (today_characters.map (fun character =>
      let message := build_birthday_message store character false
      if pc.enable_group && !pc.white_list_groups.isEmpty then
        notifyLoop transport message pc.white_list_groups
      else [])).flatten

/-- Number of transport send calls in a trace. -/
def sendCount : List Event → Nat
  | [] => 0
  | Event.send _ _ _ :: rest => sendCount rest + 1
  | Event.sleep :: rest => sendCount rest

/-- Number of one-unit sleep delays in a trace. -/
def sleepCount : List Event → Nat
  | [] => 0
  | Event.send _ _ _ :: rest => sleepCount rest
  | Event.sleep :: rest => sleepCount rest + 1

/-- The destinations and payloads of the send calls of a trace, in order. -/
def sentMessages : List Event → List (Int × List MessageSegment)
  | [] => []
  | Event.send d m _ :: rest => (d, m) :: sentMessages rest
  | Event.sleep :: rest => sentMessages rest

/-- True when at least one sleep delay separates any two consecutive send
attempts of the trace. -/
def delayedBeforeNext : List Event → Bool
  | Event.send _ _ _ :: Event.send _ _ _ :: _ => false
  | _ :: rest => delayedBeforeNext rest
  | [] => true

/-- True when every successful send of the trace is immediately followed by
exactly one sleep delay, no failed send is followed by a sleep, and sleeps
occur nowhere else. -/
def wellDelayed : List Event → Bool
  | [] => true
  | Event.send _ _ true :: Event.sleep :: rest => wellDelayed rest
  | Event.send _ _ false :: Event.sleep :: _ => false
  | Event.send _ _ false :: rest => wellDelayed rest
  | Event.send _ _ true :: _ => false
  | Event.sleep :: _ => false

/-- One line the plugin logs, tagged with the logger method it used. -/
inductive LogEntry where
  | error : String → LogEntry
  | info : String → LogEntry
deriving DecidableEq, Repr

/-- True for a line emitted through logger.error. -/
def isErrorLog : LogEntry → Bool
  | LogEntry.error _ => true
  | LogEntry.info _ => false

/-- What reading and parsing CONFIG_FILE produced: the file is missing, or
the open, JSON decode or pydantic validation raised (with the exception
text), or a parsed PjskBirthdayConfig with its plugin_config and characters
fields. -/
inductive ConfigSource where
  | missing : ConfigSource
  | malformed : String → ConfigSource
  | parsed : PluginConfig → CharactersConfig → ConfigSource

/-- load_config (src/__init__.py lines 35-59): the two globals it sets,
paired with the log lines it emits. A missing file, and any open, JSON or
validation error, both fall back to PluginConfig() with an empty characters
mapping, logging the failure through logger.error. -/
def load_config : ConfigSource → (PluginConfig × CharactersConfig) × List LogEntry
  | ConfigSource.missing =>
    ((defaultPluginConfig, []),
      [LogEntry.error "配置文件不存在", LogEntry.info "请创建配置文件并添加角色信息"])
  | ConfigSource.malformed e =>
    ((defaultPluginConfig, []), [LogEntry.error ("加载配置文件失败: " ++ e)])
  | ConfigSource.parsed pc chars =>
    ((pc, chars), [LogEntry.info "PJSK生日插件配置加载成功", LogEntry.info "白名单群组"])

/-- Attribute names the Python standard library module asyncio exports among
those a plugin like this one could reach; the module has no attribute named
time_duration, so that lookup raises AttributeError. -/
def asyncioModuleAttrs : List String :=
  ["sleep", "create_task", "get_event_loop", "run", "gather", "wait",
   "wait_for", "shield", "Task", "Future", "CancelledError", "TimeoutError"]

/-- A raised Python exception, as far as the scheduler body distinguishes
them: an AttributeError from a failed module attribute lookup, or any other
exception with its text. -/
inductive PyError where
  | attributeError : String → PyError
  | exception : String → PyError
deriving DecidableEq, Repr

/-- Resolving an attribute on the asyncio module: ok when the attribute
exists, AttributeError otherwise. -/
def asyncioGetAttr (attr : String) : Except PyError Unit :=
  if asyncioModuleAttrs.contains attr then Except.ok ()
  else Except.error (PyError.attributeError ("module asyncio has no attribute " ++ attr))

/-- What one wake of the scheduler observes: the local hour right after the
nightly sleep, the MM-DD string of that day, and the outcome of the guarded
block at lines 185-189 (nonebot.get_bot plus send_birthday_notification),
either the trace of sends or a raised error. -/
structure SchedulerWake where
  hourAtWake : Nat
  today : String
  cycleResult : Except PyError (List Event)

/-- One iteration of the while True body of pjsk_birthday_scheduler
(src/__init__.py lines 169-189). Lines 172-173 compute next_run as
now.replace(hour=0, ...) plus asyncio.time_duration(days=1), so the
attribute asyncio.time_duration is resolved first, outside any try block;
only then does the body sleep until next_run, re-check the hour (continue
when it is not 0) and run the guarded block, whose error is caught and
logged at lines 188-189. Returns the events of the iteration, or the error
that escapes the body uncaught. -/
def schedulerIteration (wake : SchedulerWake) : Except PyError (List Event) :=
  match asyncioGetAttr "time_duration" with
  | Except.error e => Except.error e
  | Except.ok _ =>
    if wake.hourAtWake ≠ 0 then Except.ok []
    else
      match wake.cycleResult with
      | Except.ok evs => Except.ok evs
      | Except.error _ => Except.ok []

/-- The while True loop of pjsk_birthday_scheduler over a finite prefix of
the stream of wakes: it keeps iterating while each body run returns, and
terminates with the error as soon as one body run raises an uncaught
exception, which kills the background task. -/
def schedulerLoop : List SchedulerWake → Except PyError (List Event)
  | [] => Except.ok []
  | wake :: rest =>
    match schedulerIteration wake with
    | Except.ok evs =>
      match schedulerLoop rest with
      | Except.ok more => Except.ok (evs ++ more)
      | Except.error e => Except.error e
    | Except.error e => Except.error e

/-- The single record of the specification scenario: Miku, 09-24,
miku.png. -/
def mikuRec : CharacterConfig := CharacterConfig.mk "Miku" "09-24" "miku.png"

/-- The roster of the specification scenario: one group holding only the
Miku record. -/
def cfgMiku : CharactersConfig := [("group1", [("miku", Entry.record mikuRec)])]

/-- Settings enabled with the two destinations 100 and 200. -/
def pcMiku : PluginConfig := PluginConfig.mk true [100, 200]

/-- Settings enabled with the single destination 100. -/
def pcOne : PluginConfig := PluginConfig.mk true [100]

/-- Settings with the group-delivery gate off and a non-empty allow list. -/
def pcDisabled : PluginConfig := PluginConfig.mk false [100, 200]

/-- An image store with no files at all. -/
def storeNone : ImageStore := fun _ => none

/-- A transport for which every send succeeds. -/
def transportOk : Transport := fun _ => true

/-- A transport for which every send raises. -/
def transportFail : Transport := fun _ => false

/-- A minimal payload used to exercise the fan-out loops. -/
def msgM : List MessageSegment := [MessageSegment.text "m"]

/-- The message the plugin builds for the Miku record when the image file is
absent. -/
def mikuMsg : List MessageSegment :=
  [MessageSegment.text "🎉今天是 Miku 的生日！\n", MessageSegment.text "[图片文件不存在]"]

/-- The exact text component the specification scenario names, spelled with
an explicit apostrophe code point. -/
def specMikuText : String :=
  "🎉 Today is Miku" ++ String.singleton (Char.ofNat 39) ++ "s birthday!\n"

/-- The group scan for today collects exactly the group records whose
birthday equals the query, in order. -/
theorem todayScanGroup_eq_filter (today : String) (g : GroupData) :
    todayScanGroup today g = (groupRecords g).filter (fun c => c.birthday == today) := by
  induction g with
  | nil => rfl
  | cons kv rest ih =>
    obtain ⟨cid, v⟩ := kv
    by_cases hc : cid = "comment"
    · simp [todayScanGroup, groupRecords, hc, ih]
    · cases v with
      | record c =>
        by_cases hb : c.birthday = today
        · simp [todayScanGroup, groupRecords, hc, hb, ih]
        · simp [todayScanGroup, groupRecords, hc, hb, ih]
      | other s => simp [todayScanGroup, groupRecords, hc, ih]

/-- The today scan is the filter of the flattened configured records. -/
theorem get_today_eq_filter (today : String) (cfg : CharactersConfig) :
    get_today_birthday_characters today cfg
      = (allRecords cfg).filter (fun c => c.birthday == today) := by
  induction cfg with
  | nil => rfl
  | cons kv rest ih =>
    obtain ⟨gid, g⟩ := kv
    by_cases hg : gid = "plugin_config"
    · simp [get_today_birthday_characters, allRecords, hg, ih]
    · simp [get_today_birthday_characters, allRecords, hg, ih,
        todayScanGroup_eq_filter, List.filter_append]

/-- find? over an appended list tries the left part first. -/
theorem find_over_append {α : Type} (p : α → Bool) (a b : List α) :
    (a ++ b).find? p
      = match a.find? p with
        | some c => some c
        | none => b.find? p := by
  induction a with
  | nil => simp
  | cons x rest ih =>
    cases hx : p x <;> simp [List.find?_cons, hx, ih]

/-- The group scan by name is find? over the group records. -/
theorem nameScanGroup_eq_find (character_name : String) (g : GroupData) :
    nameScanGroup character_name g
      = (groupRecords g).find? (fun c => c.name == character_name) := by
  induction g with
  | nil => rfl
  | cons kv rest ih =>
    obtain ⟨cid, v⟩ := kv
    by_cases hc : cid = "comment"
    · simp [nameScanGroup, groupRecords, hc, ih]
    · cases v with
      | record c =>
        by_cases hn : c.name = character_name
        · simp [nameScanGroup, groupRecords, hc, hn, List.find?_cons]
        · simp [nameScanGroup, groupRecords, hc, hn, ih, List.find?_cons]
      | other s => simp [nameScanGroup, groupRecords, hc, ih]

/-- The name lookup is find? over the flattened configured records. -/
theorem get_character_eq_find (character_name : String) (cfg : CharactersConfig) :
    get_character_by_name character_name cfg
      = (allRecords cfg).find? (fun c => c.name == character_name) := by
  induction cfg with
  | nil => rfl
  | cons kv rest ih =>
    obtain ⟨gid, g⟩ := kv
    by_cases hg : gid = "plugin_config"
    · simp [get_character_by_name, allRecords, hg, ih]
    · rw [show get_character_by_name character_name ((gid, g) :: rest)
          = (match nameScanGroup character_name g with
             | some c => some c
             | none => get_character_by_name character_name rest) from by
        simp [get_character_by_name, hg]]
      rw [show allRecords ((gid, g) :: rest) = groupRecords g ++ allRecords rest from by
        simp [allRecords, hg]]
      rw [find_over_append, ← nameScanGroup_eq_find, ih]
      cases nameScanGroup character_name g <;> rfl

/-- Dropping an entry keyed comment does not change the group records. -/
theorem groupRecords_drop_comment (h1 h2 : GroupData) (e : Entry) :
    groupRecords (h1 ++ ("comment", e) :: h2) = groupRecords (h1 ++ h2) := by
  induction h1 with
  | nil => simp [groupRecords]
  | cons kv rest ih =>
    obtain ⟨cid, v⟩ := kv
    by_cases hc : cid = "comment"
    · simp [groupRecords, hc, ih]
    · cases v <;> simp [groupRecords, hc, ih]

/-- Dropping a group keyed plugin_config does not change the records. -/
theorem allRecords_drop_plugin (g1 g2 : CharactersConfig) (pg : GroupData) :
    allRecords (g1 ++ ("plugin_config", pg) :: g2) = allRecords (g1 ++ g2) := by
  induction g1 with
  | nil => simp [allRecords]
  | cons kv rest ih =>
    obtain ⟨gid, g⟩ := kv
    by_cases hg : gid = "plugin_config"
    · simp [allRecords, hg, ih]
    · simp [allRecords, hg, ih]

/-- Replacing one group body by another with the same records leaves the
flattened records unchanged. -/
theorem allRecords_update_group (g1 g2 : CharactersConfig) (gid : String)
    (gd gd2 : GroupData) (h : groupRecords gd = groupRecords gd2) :
    allRecords (g1 ++ (gid, gd) :: g2) = allRecords (g1 ++ (gid, gd2) :: g2) := by
  induction g1 with
  | nil => by_cases hg : gid = "plugin_config" <;> simp [allRecords, hg, h]
  | cons kv rest ih =>
    obtain ⟨gid2, g⟩ := kv
    by_cases hg : gid2 = "plugin_config" <;> simp [allRecords, hg, ih]

/-- C7: for every roster and query string, get_today_birthday_characters
returns exactly the configured records whose birthday field equals the
query, independent of group membership, in group order then record order;
when no record matches the filter is empty, so the empty list is
returned. -/
theorem today_matches_filter : ∀ (today : String) (cfg : CharactersConfig),
    get_today_birthday_characters today cfg
      = (allRecords cfg).filter (fun c => c.birthday == today) :=
  get_today_eq_filter

/-- C8: for every roster and name string, get_character_by_name is find?
with exact case-sensitive string equality over the configured records in
group order then record order, so it returns the first exact match and
none whenever the name is not present verbatim. -/
theorem lookup_is_first_exact_match : ∀ (character_name : String) (cfg : CharactersConfig),
    get_character_by_name character_name cfg
      = (allRecords cfg).find? (fun c => c.name == character_name) :=
  get_character_eq_find

/-- C10: an entry stored under the key comment and a top-level group stored
under the key plugin_config are invisible to both the today scan and the
name lookup, whatever their fields hold: inserting either anywhere leaves
both results unchanged. -/
theorem hidden_keys_invisible :
    ∀ (today character_name gid : String) (g1 g2 : CharactersConfig)
      (pg h1 h2 : GroupData) (e : Entry),
    (get_today_birthday_characters today (g1 ++ ("plugin_config", pg) :: g2)
        = get_today_birthday_characters today (g1 ++ g2)) ∧
    (get_character_by_name character_name (g1 ++ ("plugin_config", pg) :: g2)
        = get_character_by_name character_name (g1 ++ g2)) ∧
    (get_today_birthday_characters today (g1 ++ (gid, h1 ++ ("comment", e) :: h2) :: g2)
        = get_today_birthday_characters today (g1 ++ (gid, h1 ++ h2) :: g2)) ∧
    (get_character_by_name character_name (g1 ++ (gid, h1 ++ ("comment", e) :: h2) :: g2)
        = get_character_by_name character_name (g1 ++ (gid, h1 ++ h2) :: g2)) := by
  intro today character_name gid g1 g2 pg h1 h2 e
  refine ⟨?_, ?_, ?_, ?_⟩
  · rw [get_today_eq_filter, get_today_eq_filter, allRecords_drop_plugin]
  · rw [get_character_eq_find, get_character_eq_find, allRecords_drop_plugin]
  · rw [get_today_eq_filter, get_today_eq_filter,
      allRecords_update_group _ _ _ _ _ (groupRecords_drop_comment h1 h2 e)]
  · rw [get_character_eq_find, get_character_eq_find,
      allRecords_update_group _ _ _ _ _ (groupRecords_drop_comment h1 h2 e)]

/-- Counts of the test fan-out loop: successes equal the destinations the
transport accepts, attempts and send calls equal the list length, and the
loop sleeps once per success. -/
theorem testLoop_spec (transport : Transport) (message : List MessageSegment) :
    ∀ l : List Int,
      (testLoop transport message l).1 = (l.filter transport).length ∧
      (testLoop transport message l).2.1 = l.length ∧
      sendCount (testLoop transport message l).2.2 = l.length ∧
      sleepCount (testLoop transport message l).2.2 = (l.filter transport).length := by
  intro l
  induction l with
  | nil => exact ⟨rfl, rfl, rfl, rfl⟩
  | cons g rest ih =>
    obtain ⟨h1, h2, h3, h4⟩ := ih
    cases hg : transport g <;>
      simp [testLoop, hg, sendCount, sleepCount, h1, h2, h3, h4]

/-- The accepted and rejected destinations partition the list. -/
theorem filter_not_split (transport : Transport) :
    ∀ l : List Int,
      (l.filter transport).length
        + (l.filter (fun g => !(transport g))).length = l.length := by
  intro l
  induction l with
  | nil => rfl
  | cons g rest ih => cases hg : transport g <;> simp [hg] <;> omega

/-- The trace of the test fan-out equals the trace of the notification
fan-out: both send then sleep on success, and send only on failure. -/
theorem testLoop_trace_eq_notifyLoop (transport : Transport) (message : List MessageSegment) :
    ∀ l : List Int, (testLoop transport message l).2.2 = notifyLoop transport message l := by
  intro l
  induction l with
  | nil => rfl
  | cons g rest ih => cases hg : transport g <;> simp [testLoop, notifyLoop, hg, ih]

/-- Prepending a failed send to a well delayed trace keeps it well delayed,
because such a trace never starts with a sleep. -/
theorem wellDelayed_cons_fail (d : Int) (ms : List MessageSegment) (tr : List Event)
    (h : wellDelayed tr = true) :
    wellDelayed (Event.send d ms false :: tr) = true := by
  cases tr with
  | nil => rfl
  | cons e tr2 =>
    cases e with
    | send d2 ms2 ok => simpa [wellDelayed] using h
    | sleep => simp [wellDelayed] at h

/-- The notification fan-out trace is well delayed: one sleep right after
each success, none after a failure. -/
theorem wellDelayed_notifyLoop (transport : Transport) (message : List MessageSegment) :
    ∀ l : List Int, wellDelayed (notifyLoop transport message l) = true := by
  intro l
  induction l with
  | nil => rfl
  | cons g rest ih =>
    cases hg : transport g
    · rw [show notifyLoop transport message (g :: rest)
          = Event.send g message false :: notifyLoop transport message rest from by
        simp [notifyLoop, hg]]
      exact wellDelayed_cons_fail g message _ ih
    · rw [show notifyLoop transport message (g :: rest)
          = Event.send g message true :: Event.sleep :: notifyLoop transport message rest from by
        simp [notifyLoop, hg]]
      simpa [wellDelayed] using ih

/-- The notification fan-out sends the message to each destination of the
list in order, whatever the transport outcomes are. -/
theorem sentMessages_notifyLoop (transport : Transport) (message : List MessageSegment) :
    ∀ l : List Int,
      sentMessages (notifyLoop transport message l) = l.map (fun g => (g, message)) := by
  intro l
  induction l with
  | nil => rfl
  | cons g rest ih => cases hg : transport g <;> simp [notifyLoop, hg, sentMessages, ih]

/-- In the specification scenario (roster with the single Miku record,
settings enabled with destinations 100 and 200, today 09-24, image file
absent), the notification routine sends the built message first to 100 and
then to 200, whatever the transport outcomes are. -/
theorem miku_sends_aux (transport : Transport) :
    sentMessages (send_birthday_notification "09-24" cfgMiku pcMiku storeNone transport)
      = [(100, mikuMsg), (200, mikuMsg)] := by
  have h : send_birthday_notification "09-24" cfgMiku pcMiku storeNone transport
      = notifyLoop transport mikuMsg [100, 200] ++ [] := rfl
  rw [h, List.append_nil, sentMessages_notifyLoop]
  rfl

/-- C1, code bug: line 173 of src/__init__.py computes next_run with
asyncio.time_duration(days=1), but the asyncio module has no attribute
time_duration, and the lookup happens before the sleep and outside the
try/except of lines 185-189; the AttributeError escapes the loop body on
the very first wake, for every possible wake state, so the scheduler loop
terminates instead of running forever as the claim states. -/
theorem scheduler_first_wake_kills_task : ∀ (wake : SchedulerWake) (rest : List SchedulerWake),
    schedulerLoop (wake :: rest)
      = Except.error (PyError.attributeError "module asyncio has no attribute time_duration") := by
  intro wake rest
  rfl

/-- C2, counterexample: with delivery enabled, destinations 100 and 200 and
a transport that fails both sends, the trace has the two send attempts back
to back with no delay between them, because the sleep sits inside the try
after the send and is skipped when the send raises; so it is false that a
delay follows every attempt. -/
theorem fanout_missing_delay_cex :
    delayedBeforeNext (deliver pcMiku transportFail msgM).2.2 = false := by decide

/-- C2, amended: in both fan-out loops, a fixed one-unit delay immediately
follows every successful send attempt (including the last one), and no
delay follows a failed attempt. -/
theorem fanout_delay_follows_success : ∀ (transport : Transport)
    (message : List MessageSegment) (dests : List Int),
    wellDelayed (testLoop transport message dests).2.2 = true ∧
    wellDelayed (notifyLoop transport message dests) = true := by
  intro transport message dests
  have h := wellDelayed_notifyLoop transport message dests
  exact ⟨by rw [testLoop_trace_eq_notifyLoop]; exact h, h⟩

/-- C3, counterexample: with delivery enabled, destinations 100 and 200 and
a transport that fails both sends (N = 2, K = 2), the loop performs zero
delays, not N minus 1 = 1, so the claimed delay count is false. -/
theorem deliver_delay_count_cex :
    ¬ (sleepCount (deliver pcMiku transportFail msgM).2.2
        = pcMiku.white_list_groups.length - 1) := by decide

/-- C3, amended: with delivery enabled over N destinations of which K sends
fail, deliver returns the pair (N minus K, N), issues exactly N transport
send calls (a failure never aborts the remaining destinations), and
performs exactly N minus K delays, one right after each successful send,
including the final one. -/
theorem deliver_counts : ∀ (pc : PluginConfig) (transport : Transport)
    (message : List MessageSegment),
    pc.enable_group = true → pc.white_list_groups ≠ [] →
    (deliver pc transport message).1
        = pc.white_list_groups.length
          - (pc.white_list_groups.filter (fun g => !(transport g))).length ∧
    (deliver pc transport message).2.1 = pc.white_list_groups.length ∧
    sendCount (deliver pc transport message).2.2 = pc.white_list_groups.length ∧
    sleepCount (deliver pc transport message).2.2
        = pc.white_list_groups.length
          - (pc.white_list_groups.filter (fun g => !(transport g))).length := by
  intro pc transport message hen hne
  have hgfalse : pc.white_list_groups.isEmpty = false := by
    cases hl : pc.white_list_groups with
    | nil => exact absurd hl hne
    | cons a l => simp [hl]
  have hd : deliver pc transport message = testLoop transport message pc.white_list_groups := by
    simp [deliver, hen, hgfalse]
  obtain ⟨h1, h2, h3, h4⟩ := testLoop_spec transport message pc.white_list_groups
  have hsub := filter_not_split transport pc.white_list_groups
  rw [hd]
  exact ⟨by rw [h1]; omega, h2, h3, by rw [h4]; omega⟩

/-- C3, witness: with the single destination 100 and a transport that
succeeds, the amended theorem instantiates to counts (1, 1), one send call
and one delay. -/
theorem deliver_counts_witness :
    (deliver pcOne transportOk msgM).1
        = pcOne.white_list_groups.length
          - (pcOne.white_list_groups.filter (fun g => !(transportOk g))).length ∧
    (deliver pcOne transportOk msgM).2.1 = pcOne.white_list_groups.length ∧
    sendCount (deliver pcOne transportOk msgM).2.2 = pcOne.white_list_groups.length ∧
    sleepCount (deliver pcOne transportOk msgM).2.2
        = pcOne.white_list_groups.length
          - (pcOne.white_list_groups.filter (fun g => !(transportOk g))).length :=
  deliver_counts pcOne transportOk msgM rfl (by decide)

/-- C4, counterexample: in the specification scenario (roster with the
single Miku record, settings enabled with destinations 100 and 200, today
09-24), the cycle does send two payloads, first to 100 then to 200, but the
text component of each is the Chinese string the builder produces, and the
English text the claim names appears in neither payload. -/
theorem birthday_miku_case_text_cex :
    sentMessages (send_birthday_notification "09-24" cfgMiku pcMiku storeNone transportOk)
      = [(100, mikuMsg), (200, mikuMsg)] ∧
    MessageSegment.text specMikuText ∉ mikuMsg := by
  exact ⟨miku_sends_aux transportOk, by decide⟩

/-- C4, amended: in the specification scenario with the image file absent,
one run of the notification routine sends exactly two payloads, the first
to destination 100 and the second to destination 200, each consisting of
the text component of the Miku birthday greeting produced by the builder
followed by the missing-image placeholder, whatever the transport
outcomes. -/
theorem birthday_miku_case_sends : ∀ (transport : Transport),
    sentMessages (send_birthday_notification "09-24" cfgMiku pcMiku storeNone transport)
      = [(100, mikuMsg), (200, mikuMsg)] :=
  miku_sends_aux

/-- C5: for every missing or malformed configuration source, loading does
not crash and degrades to the defaults, an empty roster together with
enable_group true and an empty allow list, and a line is logged through
logger.error. -/
theorem load_config_degrades : ∀ (src : ConfigSource),
    (src = ConfigSource.missing ∨ ∃ e, src = ConfigSource.malformed e) →
    (load_config src).1 = (defaultPluginConfig, []) ∧
    (load_config src).2.any isErrorLog = true := by
  intro src h
  rcases h with h | ⟨e, h⟩ <;> subst h <;> exact ⟨rfl, rfl⟩

/-- C5, witness: the missing-file case concretely yields the defaults and an
error log line. -/
theorem load_config_degrades_witness :
    (load_config ConfigSource.missing).1 = (defaultPluginConfig, []) ∧
    (load_config ConfigSource.missing).2.any isErrorLog = true :=
  load_config_degrades ConfigSource.missing (Or.inl rfl)

/-- C6: for every record whose image file is absent from the store, the
builder returns a payload whose image component is the placeholder text
segment and whose text component is unchanged from the present-image case;
being a total function, the builder never fails. -/
theorem build_missing_image_placeholder : ∀ (store : ImageStore)
    (character : CharacterConfig) (is_test : Bool),
    store character.image_file = none →
    build_birthday_message store character is_test
      = [MessageSegment.text ((if is_test then "[测试] " else "")
            ++ "🎉今天是 " ++ character.name ++ " 的生日！\n"),
         MessageSegment.text "[图片文件不存在]"] ∧
    (∀ (store2 : ImageStore) (image_data : List Nat),
      store2 character.image_file = some image_data →
      (build_birthday_message store2 character is_test).head?
        = (build_birthday_message store character is_test).head?) := by
  intro store character is_test h
  refine ⟨by simp [build_birthday_message, h], ?_⟩
  intro store2 image_data h2
  simp [build_birthday_message, h, h2]

/-- C6, witness: the Miku record against the empty store concretely yields
the placeholder payload. -/
theorem build_missing_image_placeholder_witness :
    build_birthday_message storeNone mikuRec false
      = [MessageSegment.text ((if false then "[测试] " else "")
            ++ "🎉今天是 " ++ mikuRec.name ++ " 的生日！\n"),
         MessageSegment.text "[图片文件不存在]"] :=
  (build_missing_image_placeholder storeNone mikuRec false rfl).1

/-- C9: whenever enable_group is false, and also whenever the allow list is
empty, deliver is a no-op: the counts are (0, 0) and the trace is empty, so
zero transport send calls are issued. -/
theorem deliver_disabled_noop : ∀ (pc : PluginConfig) (transport : Transport)
    (message : List MessageSegment),
    pc.enable_group = false ∨ pc.white_list_groups = [] →
    deliver pc transport message = (0, 0, []) ∧
    sendCount (deliver pc transport message).2.2 = 0 := by
  intro pc transport message h
  have hgate : (pc.enable_group && !pc.white_list_groups.isEmpty) = false := by
    rcases h with h | h <;> simp [h]
  constructor <;> simp [deliver, hgate, sendCount]

/-- C9, witness: disabled settings with a non-empty allow list concretely
deliver nothing. -/
theorem deliver_disabled_noop_witness :
    deliver pcDisabled transportOk msgM = (0, 0, []) ∧
    sendCount (deliver pcDisabled transportOk msgM).2.2 = 0 :=
  deliver_disabled_noop pcDisabled transportOk msgM (Or.inl rfl)
